import Mathlib

/-!
Verification of the EIP-4844 KZG pubdata-commitment core
(`core/lib/types/src/kzg.rs`).

The cryptographic primitives (Keccak-256, SHA-256, the c-kzg pairing
library and the 31-to-32-byte repacking transform) are external crates:
the spec treats them as black boxes specified only at their interface.
We therefore embed the core parametrically over a record of external
functions, constrained only by the output-length contracts those
libraries guarantee (`ExternalsWF`).  Byte buffers are `List Nat`.
-/

namespace Kzg

/-- `BLOB_CHUNK_SIZE` from `zkevm_circuits::eip_4844::input`. -/
def BLOB_CHUNK_SIZE : Nat := 31

/-- `ELEMENTS_PER_4844_BLOCK` from `zkevm_circuits::eip_4844::input`. -/
def ELEMENTS_PER_4844_BLOCK : Nat := 4096

/-- `BYTES_PER_BLOB` from `c_kzg` (4096 elements of 32 bytes). -/
def BYTES_PER_BLOB : Nat := 131072

/-- `const BYTES_PER_BLOB_ZK_SYNC: usize = BLOB_CHUNK_SIZE * ELEMENTS_PER_4844_BLOCK;` -/
def BYTES_PER_BLOB_ZK_SYNC : Nat := BLOB_CHUNK_SIZE * ELEMENTS_PER_4844_BLOCK

/-- `const BYTES_PER_PUBDATA_COMMITMENT: usize = 144;` -/
def BYTES_PER_PUBDATA_COMMITMENT : Nat := 144

/-- `const VERSIONED_HASH_VERSION_KZG: u8 = 0x01;` -/
def VERSIONED_HASH_VERSION_KZG : Nat := 0x01

/-- `const SERIALIZED_SIZE: usize = BYTES_PER_BLOB + 48 + 32 + 32 + 48 + 32 + 48;` -/
def SERIALIZED_SIZE : Nat := BYTES_PER_BLOB + 48 + 32 + 32 + 48 + 32 + 48

/-- The external functions `kzg.rs` calls into: the two hash primitives,
the 4844 repacking transform, and the three c-kzg operations (with the
trusted setup baked in, since `kzg.rs` only threads it through). -/
structure Externals where
  keccak256 : List Nat → List Nat
  sha256 : List Nat → List Nat
  repack : List Nat → List Nat
  blobToKzgCommitment : List Nat → List Nat
  computeKzgProof : List Nat → List Nat → List Nat × List Nat
  computeBlobKzgProof : List Nat → List Nat → List Nat

/-- Interface contracts of the external libraries: output sizes only
(Keccak-256 and SHA-256 give 32-byte digests, the repacking transform
turns the 126976-byte internal blob into a 131072-byte 4844 blob,
commitments and proofs are 48 bytes, opening values 32 bytes). -/
structure ExternalsWF (E : Externals) : Prop where
  keccak_len : ∀ x, (E.keccak256 x).length = 32
  sha_len : ∀ x, (E.sha256 x).length = 32
  repack_len : ∀ x, x.length = BYTES_PER_BLOB_ZK_SYNC →
    (E.repack x).length = BYTES_PER_BLOB
  commit_len : ∀ x, (E.blobToKzgCommitment x).length = 48
  proof_len : ∀ b p, (E.computeKzgProof b p).1.length = 48
  value_len : ∀ b p, (E.computeKzgProof b p).2.length = 32
  blob_proof_len : ∀ b c, (E.computeBlobKzgProof b c).length = 48

/-- The `KzgInfo` struct.  In Rust the field types (`Blob`, `Bytes48`,
`Bytes32`) fix the byte lengths; here that invariant is `KzgInfo.WF`. -/
structure KzgInfo where
  blob : List Nat
  kzg_commitment : List Nat
  opening_point : List Nat
  opening_value : List Nat
  opening_proof : List Nat
  versioned_hash : List Nat
  blob_proof : List Nat
deriving DecidableEq, Repr

/-- The length invariants the Rust types `Blob`/`Bytes48`/`Bytes32`
enforce on the fields of `KzgInfo`. -/
def KzgInfo.WF (info : KzgInfo) : Prop :=
  info.blob.length = BYTES_PER_BLOB ∧
  info.kzg_commitment.length = 48 ∧
  info.opening_point.length = 32 ∧
  info.opening_value.length = 32 ∧
  info.opening_proof.length = 48 ∧
  info.versioned_hash.length = 32 ∧
  info.blob_proof.length = 48

instance (info : KzgInfo) : Decidable info.WF := by
  unfold KzgInfo.WF; infer_instance

/-- `res[start..start + src.len()].copy_from_slice(&src)`: overwrite the
slice of `buf` starting at `start` with `src` (the Rust call requires the
slice widths to agree, which the `WF` length facts guarantee wherever we
use this). -/
def setSlice (buf : List Nat) (start : Nat) (src : List Nat) : List Nat :=
  buf.take start ++ src ++ buf.drop (start + src.length)

/-- Lines 154-155 of `KzgInfo::new`: the `C`-byte zero buffer whose front
is overwritten with the pubdata (right-padding). -/
def zksyncBlob (pubdata : List Nat) : List Nat :=
  pubdata ++ List.replicate (BYTES_PER_BLOB_ZK_SYNC - pubdata.length) 0

/-- Lines 157-159: `linear_hash` = Keccak-256 of the padded internal blob
(taken before the repacking transform). -/
def linearHash (E : Externals) (pubdata : List Nat) : List Nat :=
  E.keccak256 (zksyncBlob pubdata)

/-- Lines 167-170: SHA-256 of the serialized commitment with byte 0
overwritten by `VERSIONED_HASH_VERSION_KZG`. -/
def versionedHashBytes (E : Externals) (commitment : List Nat) : List Nat :=
  (E.sha256 commitment).set 0 VERSIONED_HASH_VERSION_KZG

/-- Lines 173-179: Keccak-256 of `linear_hash || versioned_hash_bytes`,
with only bytes 16..32 of the digest kept and bytes 0..16 forced to 0. -/
def openingPointBytes (E : Externals) (lh vh : List Nat) : List Nat :=
  List.replicate 16 0 ++ (E.keccak256 (lh ++ vh)).drop 16

/-- `KzgInfo::new` (lines 151-197).  The `assert!(pubdata.len() <=
BYTES_PER_BLOB_ZK_SYNC)` on entry is modelled as `Option`: `none` is the
fail-fast abort, producing no partial result. -/
def KzgInfo.new (E : Externals) (pubdata : List Nat) : Option KzgInfo :=
  if pubdata.length ≤ BYTES_PER_BLOB_ZK_SYNC then
    let zb := zksyncBlob pubdata
    let lh := linearHash E pubdata
    let blob := E.repack zb
    let kzg_commitment := E.blobToKzgCommitment blob
    let vh := versionedHashBytes E kzg_commitment
    let op := openingPointBytes E lh vh
    let pv := E.computeKzgProof blob op
    let bp := E.computeBlobKzgProof blob kzg_commitment
    some ⟨blob, kzg_commitment, op, pv.2, pv.1, vh, bp⟩
  else
    none

/-- `KzgInfo::from_slice` (lines 63-107): assert the input is exactly
`SERIALIZED_SIZE` bytes, then copy out the seven fields at the running
offsets `ptr = 0, +BYTES_PER_BLOB, +48, +32, +32, +48, +32`. -/
def KzgInfo.from_slice (data : List Nat) : Option KzgInfo :=
  if data.length = SERIALIZED_SIZE then
    some ⟨data.take BYTES_PER_BLOB,
          (data.drop BYTES_PER_BLOB).take 48,
          (data.drop (BYTES_PER_BLOB + 48)).take 32,
          (data.drop (BYTES_PER_BLOB + 80)).take 32,
          (data.drop (BYTES_PER_BLOB + 112)).take 48,
          (data.drop (BYTES_PER_BLOB + 160)).take 32,
          (data.drop (BYTES_PER_BLOB + 192)).take 48⟩
  else
    none

/-- `KzgInfo::to_bytes` (lines 110-139): fill a zeroed
`SERIALIZED_SIZE`-byte buffer with the seven fields back-to-back at the
same running offsets `from_slice` reads them from. -/
def KzgInfo.to_bytes (info : KzgInfo) : List Nat :=
  let res := List.replicate SERIALIZED_SIZE 0
  let res := setSlice res 0 info.blob
  let res := setSlice res BYTES_PER_BLOB info.kzg_commitment
  let res := setSlice res (BYTES_PER_BLOB + 48) info.opening_point
  let res := setSlice res (BYTES_PER_BLOB + 80) info.opening_value
  let res := setSlice res (BYTES_PER_BLOB + 112) info.opening_proof
  let res := setSlice res (BYTES_PER_BLOB + 160) info.versioned_hash
  let res := setSlice res (BYTES_PER_BLOB + 192) info.blob_proof
  res

/-- `KzgInfo::to_pubdata_commitment` (lines 50-60): 144-byte buffer
holding `opening_point[16..32] || opening_value || kzg_commitment ||
opening_proof`. -/
def KzgInfo.to_pubdata_commitment (info : KzgInfo) : List Nat :=
  let res := List.replicate BYTES_PER_PUBDATA_COMMITMENT 0
  let truncated_opening_point := info.opening_point.drop 16
  let res := setSlice res 0 truncated_opening_point
  let res := setSlice res 16 info.opening_value
  let res := setSlice res 48 info.kzg_commitment
  let res := setSlice res 96 info.opening_proof
  res

/-!  ## Structural lemmas about the byte-buffer writes  -/

/-- Writing `src` at offset `start` into a buffer that is a filled prefix
`A` of that length followed by zero padding appends `src` to the prefix
and shrinks the padding. -/
theorem fill_step (A src : List Nat) (r start : Nat) (hA : A.length = start) :
    setSlice (A ++ List.replicate r 0) start src
      = (A ++ src) ++ List.replicate (r - src.length) 0 := by
  subst hA
  unfold setSlice
  rw [List.take_left, List.drop_append]
  simp [List.append_assoc]

/-- Under the Rust length invariants, `to_bytes` is exactly the
back-to-back concatenation of the seven fields in declaration order. -/
theorem KzgInfo.to_bytes_eq (info : KzgInfo) (h : info.WF) :
    info.to_bytes = info.blob ++ (info.kzg_commitment ++ (info.opening_point ++
      (info.opening_value ++ (info.opening_proof ++
        (info.versioned_hash ++ info.blob_proof))))) := by
  obtain ⟨h1, h2, h3, h4, h5, h6, h7⟩ := h
  unfold KzgInfo.to_bytes
  dsimp only
  rw [show List.replicate SERIALIZED_SIZE (0 : Nat)
        = [] ++ List.replicate SERIALIZED_SIZE (0 : Nat) from rfl]
  rw [fill_step [] info.blob SERIALIZED_SIZE 0 rfl]
  rw [fill_step ([] ++ info.blob) info.kzg_commitment _ BYTES_PER_BLOB (by simp [h1])]
  rw [fill_step (([] ++ info.blob) ++ info.kzg_commitment) info.opening_point _
    (BYTES_PER_BLOB + 48) (by simp [h1, h2])]
  rw [fill_step ((([] ++ info.blob) ++ info.kzg_commitment) ++ info.opening_point)
    info.opening_value _ (BYTES_PER_BLOB + 80) (by simp [h1, h2, h3])]
  rw [fill_step (((([] ++ info.blob) ++ info.kzg_commitment) ++ info.opening_point)
    ++ info.opening_value) info.opening_proof _ (BYTES_PER_BLOB + 112)
    (by simp [h1, h2, h3, h4])]
  rw [fill_step ((((([] ++ info.blob) ++ info.kzg_commitment) ++ info.opening_point)
    ++ info.opening_value) ++ info.opening_proof) info.versioned_hash _
    (BYTES_PER_BLOB + 160) (by simp [h1, h2, h3, h4, h5])]
  rw [fill_step (((((([] ++ info.blob) ++ info.kzg_commitment) ++ info.opening_point)
    ++ info.opening_value) ++ info.opening_proof) ++ info.versioned_hash)
    info.blob_proof _ (BYTES_PER_BLOB + 192) (by simp [h1, h2, h3, h4, h5, h6])]
  rw [h1, h2, h3, h4, h5, h6, h7]
  norm_num [SERIALIZED_SIZE, BYTES_PER_BLOB]

/-- Under the Rust length invariants, `to_pubdata_commitment` is exactly
`opening_point[16..] || opening_value || kzg_commitment || opening_proof`. -/
theorem KzgInfo.to_pubdata_commitment_eq (info : KzgInfo) (h : info.WF) :
    info.to_pubdata_commitment = info.opening_point.drop 16 ++
      (info.opening_value ++ (info.kzg_commitment ++ info.opening_proof)) := by
  obtain ⟨h1, h2, h3, h4, h5, h6, h7⟩ := h
  have htr : (info.opening_point.drop 16).length = 16 := by
    simp [List.length_drop, h3]
  unfold KzgInfo.to_pubdata_commitment
  dsimp only
  rw [show List.replicate BYTES_PER_PUBDATA_COMMITMENT (0 : Nat)
        = [] ++ List.replicate BYTES_PER_PUBDATA_COMMITMENT (0 : Nat) from rfl]
  rw [fill_step [] (info.opening_point.drop 16) BYTES_PER_PUBDATA_COMMITMENT 0 rfl]
  rw [fill_step ([] ++ info.opening_point.drop 16) info.opening_value _ 16
    (by simp [htr])]
  rw [fill_step (([] ++ info.opening_point.drop 16) ++ info.opening_value)
    info.kzg_commitment _ 48 (by simp [htr, h4])]
  rw [fill_step ((([] ++ info.opening_point.drop 16) ++ info.opening_value)
    ++ info.kzg_commitment) info.opening_proof _ 96 (by simp [htr, h4, h2])]
  rw [htr, h2, h4, h5]
  norm_num [BYTES_PER_PUBDATA_COMMITMENT]

/-- Dropping past a prefix of known length. -/
theorem drop_concat (A B : List Nat) (n m : Nat) (hA : A.length = n) :
    (A ++ B).drop (n + m) = B.drop m := by
  subst hA
  rw [List.drop_append]

/-!  ## Named intermediate values of `KzgInfo::new`  -/

/-- Lines 162-163: the 4844 blob obtained by repacking the padded
internal blob. -/
def blobOf (E : Externals) (pubdata : List Nat) : List Nat :=
  E.repack (zksyncBlob pubdata)

/-- Line 165: the KZG commitment to the 4844 blob. -/
def commitmentOf (E : Externals) (pubdata : List Nat) : List Nat :=
  E.blobToKzgCommitment (blobOf E pubdata)

/-- Lines 167-171: the versioned hash of the commitment. -/
def versionedHashOf (E : Externals) (pubdata : List Nat) : List Nat :=
  versionedHashBytes E (commitmentOf E pubdata)

/-- Lines 173-179: the opening point. -/
def openingPointOf (E : Externals) (pubdata : List Nat) : List Nat :=
  openingPointBytes E (linearHash E pubdata) (versionedHashOf E pubdata)

/-- On inputs within capacity, `KzgInfo::new` succeeds and returns
exactly the record assembled from its intermediate values. -/
theorem KzgInfo.new_eq (E : Externals) (pubdata : List Nat)
    (h : pubdata.length ≤ BYTES_PER_BLOB_ZK_SYNC) :
    KzgInfo.new E pubdata = some
      ⟨blobOf E pubdata,
       commitmentOf E pubdata,
       openingPointOf E pubdata,
       (E.computeKzgProof (blobOf E pubdata) (openingPointOf E pubdata)).2,
       (E.computeKzgProof (blobOf E pubdata) (openingPointOf E pubdata)).1,
       versionedHashOf E pubdata,
       E.computeBlobKzgProof (blobOf E pubdata) (commitmentOf E pubdata)⟩ := by
  unfold KzgInfo.new blobOf commitmentOf versionedHashOf openingPointOf
  rw [if_pos h]
  rfl

/-- The padded internal blob has length exactly `C` whenever the pubdata
fits. -/
theorem zksyncBlob_length (pubdata : List Nat)
    (h : pubdata.length ≤ BYTES_PER_BLOB_ZK_SYNC) :
    (zksyncBlob pubdata).length = BYTES_PER_BLOB_ZK_SYNC := by
  simp only [zksyncBlob, List.length_append, List.length_replicate]
  omega

/-- Any record produced by `KzgInfo::new` satisfies the Rust length
invariants, given the external libraries' output-size contracts. -/
theorem KzgInfo.new_wf (E : Externals) (pubdata : List Nat) (info : KzgInfo)
    (hE : ExternalsWF E) (h : pubdata.length ≤ BYTES_PER_BLOB_ZK_SYNC)
    (hsome : KzgInfo.new E pubdata = some info) : info.WF := by
  rw [KzgInfo.new_eq E pubdata h, Option.some.injEq] at hsome
  subst hsome
  have hblob : (blobOf E pubdata).length = BYTES_PER_BLOB :=
    hE.repack_len _ (zksyncBlob_length pubdata h)
  refine ⟨hblob, hE.commit_len _, ?_, hE.value_len _ _, hE.proof_len _ _, ?_, hE.blob_proof_len _ _⟩
  · simp [openingPointOf, openingPointBytes, hE.keccak_len]
  · simp [versionedHashOf, versionedHashBytes, hE.sha_len]

/-- Any record produced by `KzgInfo::from_slice` satisfies the Rust
length invariants. -/
theorem KzgInfo.from_slice_wf (data : List Nat) (info : KzgInfo)
    (hsome : KzgInfo.from_slice data = some info) : info.WF := by
  unfold KzgInfo.from_slice at hsome
  by_cases h : data.length = SERIALIZED_SIZE
  · rw [if_pos h, Option.some.injEq] at hsome
    subst hsome
    unfold KzgInfo.WF
    refine ⟨?_, ?_, ?_, ?_, ?_, ?_, ?_⟩ <;>
      simp only [List.length_take, List.length_drop, h] <;> decide
  · rw [if_neg h] at hsome
    cases hsome

/-- Deserialization inverts serialization on every well-formed record
(C2's codec core). -/
theorem KzgInfo.from_slice_to_bytes (info : KzgInfo) (h : info.WF) :
    KzgInfo.from_slice info.to_bytes = some info := by
  have hb := info.to_bytes_eq h
  obtain ⟨h1, h2, h3, h4, h5, h6, h7⟩ := h
  obtain ⟨b, kc, op, ov, opr, vh, bp⟩ := info
  simp only at hb h1 h2 h3 h4 h5 h6 h7 ⊢
  rw [hb]
  unfold KzgInfo.from_slice
  rw [if_pos (by simp [h1, h2, h3, h4, h5, h6, h7, SERIALIZED_SIZE, BYTES_PER_BLOB])]
  simp only [Option.some.injEq, KzgInfo.mk.injEq]
  refine ⟨?_, ?_, ?_, ?_, ?_, ?_, ?_⟩
  · exact List.take_left' h1
  · rw [List.drop_left' h1]
    exact List.take_left' h2
  · rw [drop_concat _ _ _ 48 h1, List.drop_left' h2]
    exact List.take_left' h3
  · rw [drop_concat _ _ _ 80 h1, show (80 : Nat) = 48 + 32 from rfl,
      drop_concat _ _ _ 32 h2, List.drop_left' h3]
    exact List.take_left' h4
  · rw [drop_concat _ _ _ 112 h1, show (112 : Nat) = 48 + 64 from rfl,
      drop_concat _ _ _ 64 h2, show (64 : Nat) = 32 + 32 from rfl,
      drop_concat _ _ _ 32 h3, List.drop_left' h4]
    exact List.take_left' h5
  · rw [drop_concat _ _ _ 160 h1, show (160 : Nat) = 48 + 112 from rfl,
      drop_concat _ _ _ 112 h2, show (112 : Nat) = 32 + 80 from rfl,
      drop_concat _ _ _ 80 h3, show (80 : Nat) = 32 + 48 from rfl,
      drop_concat _ _ _ 48 h4, List.drop_left' h5]
    exact List.take_left' h6
  · rw [drop_concat _ _ _ 192 h1, show (192 : Nat) = 48 + 144 from rfl,
      drop_concat _ _ _ 144 h2, show (144 : Nat) = 32 + 112 from rfl,
      drop_concat _ _ _ 112 h3, show (112 : Nat) = 32 + 80 from rfl,
      drop_concat _ _ _ 80 h4, show (80 : Nat) = 48 + 32 from rfl,
      drop_concat _ _ _ 32 h5, List.drop_left' h6]
    exact List.take_of_length_le (le_of_eq h7)

/-- Serialization inverts deserialization on every buffer of the exact
serialized size (C10's codec core). -/
theorem KzgInfo.to_bytes_from_slice (data : List Nat)
    (h : data.length = SERIALIZED_SIZE) :
    (KzgInfo.from_slice data).map KzgInfo.to_bytes = some data := by
  rcases hfs : KzgInfo.from_slice data with _ | info
  · unfold KzgInfo.from_slice at hfs
    rw [if_pos h] at hfs
    cases hfs
  · have hwf := KzgInfo.from_slice_wf data info hfs
    rw [Option.map_some', KzgInfo.to_bytes_eq info hwf]
    unfold KzgInfo.from_slice at hfs
    rw [if_pos h, Option.some.injEq] at hfs
    subst hfs
    dsimp only
    rw [List.take_of_length_le
      (show (data.drop (BYTES_PER_BLOB + 192)).length ≤ 48 by
        rw [List.length_drop, h]; decide)]
    rw [show BYTES_PER_BLOB + 192 = (BYTES_PER_BLOB + 160) + 32 from rfl,
      List.drop_take_append_drop]
    rw [show BYTES_PER_BLOB + 160 = (BYTES_PER_BLOB + 112) + 48 from rfl,
      List.drop_take_append_drop]
    rw [show BYTES_PER_BLOB + 112 = (BYTES_PER_BLOB + 80) + 32 from rfl,
      List.drop_take_append_drop]
    rw [show BYTES_PER_BLOB + 80 = (BYTES_PER_BLOB + 48) + 32 from rfl,
      List.drop_take_append_drop]
    rw [List.drop_take_append_drop]
    exact congrArg some (List.take_append_drop BYTES_PER_BLOB data)

/-!  ## A concrete instantiation of the external interface

Used to evaluate the development on concrete inputs.  The mock Keccak
returns 32 copies of input byte 32 (so that, on a 64-byte input, the
digest depends on the first byte of the second half); the mock SHA-256
is constantly zero; the KZG primitives return constant buffers of the
contractual sizes.  All satisfy `ExternalsWF`. -/

def mockE : Externals where
  keccak256 := fun x => List.replicate 32 (x.getD 32 0)
  sha256 := fun _ => List.replicate 32 0
  repack := fun _ => List.replicate BYTES_PER_BLOB 0
  blobToKzgCommitment := fun _ => List.replicate 48 0
  computeKzgProof := fun _ _ => (List.replicate 48 0, List.replicate 32 0)
  computeBlobKzgProof := fun _ _ => List.replicate 48 0

theorem mockE_wf : ExternalsWF mockE := by
  constructor <;> intros <;> simp [mockE]

/-- A well-formed concrete record, for evaluating the codec claims. -/
def mockInfo : KzgInfo :=
  ⟨List.replicate BYTES_PER_BLOB 0, List.replicate 48 1, List.replicate 32 2,
   List.replicate 32 3, List.replicate 48 4, List.replicate 32 5,
   List.replicate 48 6⟩

theorem mockInfo_wf : mockInfo.WF := by
  refine ⟨?_, ?_, ?_, ?_, ?_, ?_, ?_⟩ <;> simp [mockInfo]

/-!  ## The opening point as the spec words it (refinement definitions) -/

/-- The opening point exactly as claim C1 words it: the Keccak-256
digest of `linear_hash || versioned_hash_raw` — with `versioned_hash_raw`
the SHA-256 digest of the serialized commitment BEFORE its byte 0 is
overwritten with the version tag — keeping only the digest's low 16
bytes and forcing the high 16 bytes to zero. -/
def openingPointClaimed (E : Externals) (pubdata : List Nat) : List Nat :=
  List.replicate 16 0 ++
    (E.keccak256 (linearHash E pubdata ++ E.sha256 (commitmentOf E pubdata))).drop 16

/-- The opening point with the claim amended to what the code computes:
the Keccak-256 digest of `linear_hash || versioned_hash`, where
`versioned_hash` is the SHA-256 digest AFTER its byte 0 has been
overwritten with the version tag 0x01, truncated the same way. -/
def openingPointCorrected (E : Externals) (pubdata : List Nat) : List Nat :=
  List.replicate 16 0 ++
    (E.keccak256 (linearHash E pubdata ++
      (E.sha256 (commitmentOf E pubdata)).set 0 VERSIONED_HASH_VERSION_KZG)).drop 16

/-!  ## The claims  -/

/-- Claim C1, counterexample: the opening point produced by
`KzgInfo::new` is NOT in general the Keccak-256 digest of
`linear_hash || versioned_hash_raw` (raw = before the version-tag
overwrite): the code at lines 170-174 overwrites byte 0 with 0x01 first
and only then feeds the buffer to Keccak.  Witnessed by a concrete
length-respecting instantiation of the external primitives and empty
pubdata. -/
theorem C1_counterexample :
    ExternalsWF mockE ∧
    (KzgInfo.new mockE []).map KzgInfo.opening_point
      ≠ some (openingPointClaimed mockE []) :=
  ⟨mockE_wf, by decide⟩

/-- Claim C1 (amended): for every pubdata of length at most `C`, the
opening point produced by `KzgInfo::new` equals the Keccak-256 digest of
`linear_hash || versioned_hash` — where `versioned_hash` is the SHA-256
digest of the serialized commitment AFTER its byte 0 is overwritten with
the version tag 0x01 — with the digest's high 16 bytes forced to zero
and only its low 16 bytes kept. -/
theorem C1_opening_point (E : Externals) (pubdata : List Nat)
    (h : pubdata.length ≤ BYTES_PER_BLOB_ZK_SYNC) :
    (KzgInfo.new E pubdata).map KzgInfo.opening_point
      = some (openingPointCorrected E pubdata) := by
  rw [KzgInfo.new_eq E pubdata h, Option.map_some']
  rfl

theorem C1_witness :
    ([] : List Nat).length ≤ BYTES_PER_BLOB_ZK_SYNC ∧
    (KzgInfo.new mockE []).map KzgInfo.opening_point
      = some (openingPointCorrected mockE []) :=
  ⟨by decide, C1_opening_point mockE [] (by decide)⟩

/-- Claim C2: for every pubdata with length at most `C` (and length-
contract-respecting external libraries), deserializing the serialization
of the constructed record returns the record unchanged. -/
theorem C2_roundtrip (E : Externals) (pubdata : List Nat)
    (hE : ExternalsWF E) (h : pubdata.length ≤ BYTES_PER_BLOB_ZK_SYNC) :
    (KzgInfo.new E pubdata).bind (fun i => KzgInfo.from_slice i.to_bytes)
      = KzgInfo.new E pubdata := by
  rcases hn : KzgInfo.new E pubdata with _ | info
  · rfl
  · have hwf := KzgInfo.new_wf E pubdata info hE h hn
    rw [Option.some_bind]
    exact KzgInfo.from_slice_to_bytes info hwf

theorem C2_witness :
    ExternalsWF mockE ∧ ([] : List Nat).length ≤ BYTES_PER_BLOB_ZK_SYNC ∧
    (KzgInfo.new mockE []).bind (fun i => KzgInfo.from_slice i.to_bytes)
      = KzgInfo.new mockE [] :=
  ⟨mockE_wf, by decide, C2_roundtrip mockE [] mockE_wf (by decide)⟩

/-- Claim C3: for every (well-formed) `KzgInfo`, `to_bytes` returns
exactly `SERIALIZED_SIZE` = 131312 bytes holding, back-to-back with no
padding, the blob, the commitment, the opening point, the opening value,
the opening proof, the versioned hash, and the blob proof, in that
order. -/
theorem C3_layout (info : KzgInfo) (h : info.WF) :
    info.to_bytes.length = SERIALIZED_SIZE ∧
    SERIALIZED_SIZE = 131312 ∧
    info.to_bytes = info.blob ++ (info.kzg_commitment ++ (info.opening_point ++
      (info.opening_value ++ (info.opening_proof ++
        (info.versioned_hash ++ info.blob_proof))))) := by
  have hb := info.to_bytes_eq h
  obtain ⟨h1, h2, h3, h4, h5, h6, h7⟩ := h
  refine ⟨?_, by decide, hb⟩
  rw [hb]
  simp only [List.length_append, h1, h2, h3, h4, h5, h6, h7]
  decide

theorem C3_witness :
    mockInfo.WF ∧
    (mockInfo.to_bytes.length = SERIALIZED_SIZE ∧
     SERIALIZED_SIZE = 131312 ∧
     mockInfo.to_bytes = mockInfo.blob ++ (mockInfo.kzg_commitment ++
       (mockInfo.opening_point ++ (mockInfo.opening_value ++
         (mockInfo.opening_proof ++
           (mockInfo.versioned_hash ++ mockInfo.blob_proof)))))) :=
  ⟨mockInfo_wf, C3_layout mockInfo mockInfo_wf⟩

/-- Claim C4: for every (well-formed) `KzgInfo`,
`to_pubdata_commitment` returns exactly 144 bytes with bytes 0-15 equal
to `opening_point[16..32]`, bytes 16-47 equal to `opening_value`, bytes
48-95 equal to `kzg_commitment`, and bytes 96-143 equal to
`opening_proof`; the four segments cover the whole buffer, so
`versioned_hash` and `blob_proof` contribute nothing to it. -/
theorem C4_compact (info : KzgInfo) (h : info.WF) :
    info.to_pubdata_commitment.length = 144 ∧
    info.to_pubdata_commitment.take 16 = info.opening_point.drop 16 ∧
    (info.to_pubdata_commitment.drop 16).take 32 = info.opening_value ∧
    (info.to_pubdata_commitment.drop 48).take 48 = info.kzg_commitment ∧
    info.to_pubdata_commitment.drop 96 = info.opening_proof := by
  have hp := info.to_pubdata_commitment_eq h
  obtain ⟨h1, h2, h3, h4, h5, h6, h7⟩ := h
  have htr : (info.opening_point.drop 16).length = 16 := by
    simp [List.length_drop, h3]
  refine ⟨?_, ?_, ?_, ?_, ?_⟩
  · rw [hp]
    simp only [List.length_append, htr, h4, h2, h5]
  · rw [hp]
    exact List.take_left' htr
  · rw [hp, List.drop_left' htr]
    exact List.take_left' h4
  · rw [hp, show (48 : Nat) = 16 + 32 from rfl, drop_concat _ _ _ 32 htr,
      List.drop_left' h4]
    exact List.take_left' h2
  · rw [hp, show (96 : Nat) = 16 + 80 from rfl, drop_concat _ _ _ 80 htr,
      show (80 : Nat) = 32 + 48 from rfl, drop_concat _ _ _ 48 h4,
      List.drop_left' h2]

theorem C4_witness :
    mockInfo.WF ∧
    (mockInfo.to_pubdata_commitment.length = 144 ∧
     mockInfo.to_pubdata_commitment.take 16 = mockInfo.opening_point.drop 16 ∧
     (mockInfo.to_pubdata_commitment.drop 16).take 32 = mockInfo.opening_value ∧
     (mockInfo.to_pubdata_commitment.drop 48).take 48 = mockInfo.kzg_commitment ∧
     mockInfo.to_pubdata_commitment.drop 96 = mockInfo.opening_proof) :=
  ⟨mockInfo_wf, C4_compact mockInfo mockInfo_wf⟩

/-- Claim C5: for every pubdata of length at most `C` and any external
primitives, the record produced by `KzgInfo::new` has bytes 0-15 of its
opening point all zero. -/
theorem C5_opening_point_high_zero (E : Externals) (pubdata : List Nat)
    (h : pubdata.length ≤ BYTES_PER_BLOB_ZK_SYNC) :
    (KzgInfo.new E pubdata).map (fun i => i.opening_point.take 16)
      = some (List.replicate 16 0) := by
  rw [KzgInfo.new_eq E pubdata h, Option.map_some']
  refine congrArg some ?_
  simp only [openingPointOf, openingPointBytes]
  exact List.take_left' (by simp)

theorem C5_witness :
    ([] : List Nat).length ≤ BYTES_PER_BLOB_ZK_SYNC ∧
    (KzgInfo.new mockE []).map (fun i => i.opening_point.take 16)
      = some (List.replicate 16 0) :=
  ⟨by decide, C5_opening_point_high_zero mockE [] (by decide)⟩

/-- Claim C6: the record produced by `KzgInfo::new` has versioned-hash
byte 0 equal to the version tag 0x01, versioned-hash bytes 1-31 equal to
bytes 1-31 of the SHA-256 digest of the serialized commitment, and a
48-byte commitment (the record's commitment being exactly the one the
digest is taken of). -/
theorem C6_versioned_hash (E : Externals) (pubdata : List Nat)
    (hE : ExternalsWF E) (h : pubdata.length ≤ BYTES_PER_BLOB_ZK_SYNC) :
    (KzgInfo.new E pubdata).map
        (fun i => (i.versioned_hash.getD 0 0, i.versioned_hash.drop 1,
                   i.kzg_commitment, i.kzg_commitment.length))
      = some (VERSIONED_HASH_VERSION_KZG,
              (E.sha256 (commitmentOf E pubdata)).drop 1,
              commitmentOf E pubdata, 48) := by
  rw [KzgInfo.new_eq E pubdata h, Option.map_some']
  refine congrArg some ?_
  have hlen := hE.sha_len (commitmentOf E pubdata)
  rcases hx : E.sha256 (commitmentOf E pubdata) with _ | ⟨a, t⟩
  · rw [hx] at hlen
    cases hlen
  · simp only [versionedHashOf, versionedHashBytes, hx, List.set_cons_zero,
      List.getD_cons_zero, List.drop_succ_cons, List.drop_zero, Prod.mk.injEq]
    exact ⟨trivial, trivial, trivial, hE.commit_len _⟩

theorem C6_witness :
    ExternalsWF mockE ∧ ([] : List Nat).length ≤ BYTES_PER_BLOB_ZK_SYNC ∧
    (KzgInfo.new mockE []).map
        (fun i => (i.versioned_hash.getD 0 0, i.versioned_hash.drop 1,
                   i.kzg_commitment, i.kzg_commitment.length))
      = some (VERSIONED_HASH_VERSION_KZG,
              (mockE.sha256 (commitmentOf mockE [])).drop 1,
              commitmentOf mockE [], 48) :=
  ⟨mockE_wf, by decide, C6_versioned_hash mockE [] mockE_wf (by decide)⟩

/-- Claim C7: for pubdata of length `L ≤ C = 4096 × 31`, the padded
internal blob built by `KzgInfo::new` has exactly `C` bytes, starts with
the pubdata, is zero thereafter, and the linear hash is the Keccak-256
digest of that padded blob (taken before repacking: the record's blob is
the repacking of the same padded blob). -/
theorem C7_padding (E : Externals) (pubdata : List Nat)
    (h : pubdata.length ≤ BYTES_PER_BLOB_ZK_SYNC) :
    (zksyncBlob pubdata).length = BYTES_PER_BLOB_ZK_SYNC ∧
    (zksyncBlob pubdata).take pubdata.length = pubdata ∧
    (zksyncBlob pubdata).drop pubdata.length
      = List.replicate (BYTES_PER_BLOB_ZK_SYNC - pubdata.length) 0 ∧
    linearHash E pubdata = E.keccak256 (zksyncBlob pubdata) ∧
    (KzgInfo.new E pubdata).map KzgInfo.blob
      = some (E.repack (zksyncBlob pubdata)) ∧
    BYTES_PER_BLOB_ZK_SYNC = 4096 * 31 := by
  refine ⟨zksyncBlob_length pubdata h, ?_, ?_, rfl, ?_, by decide⟩
  · exact List.take_left pubdata _
  · exact List.drop_left pubdata _
  · rw [KzgInfo.new_eq E pubdata h, Option.map_some']
    rfl

theorem C7_witness :
    ([5, 6, 7] : List Nat).length ≤ BYTES_PER_BLOB_ZK_SYNC ∧
    ((zksyncBlob [5, 6, 7]).length = BYTES_PER_BLOB_ZK_SYNC ∧
     (zksyncBlob [5, 6, 7]).take ([5, 6, 7] : List Nat).length = [5, 6, 7] ∧
     (zksyncBlob [5, 6, 7]).drop ([5, 6, 7] : List Nat).length
       = List.replicate (BYTES_PER_BLOB_ZK_SYNC - ([5, 6, 7] : List Nat).length) 0 ∧
     linearHash mockE [5, 6, 7] = mockE.keccak256 (zksyncBlob [5, 6, 7]) ∧
     (KzgInfo.new mockE [5, 6, 7]).map KzgInfo.blob
       = some (mockE.repack (zksyncBlob [5, 6, 7])) ∧
     BYTES_PER_BLOB_ZK_SYNC = 4096 * 31) :=
  ⟨by decide, C7_padding mockE [5, 6, 7] (by decide)⟩

/-- Claim C8: `KzgInfo::new` succeeds exactly on pubdata of length at
most `C = 4096 × 31` — in particular it succeeds at length exactly `C` —
and on any longer input it aborts with no partial result (`none`), in
particular at length `C + 1`. -/
theorem C8_capacity (E : Externals) (pubdata : List Nat) :
    ((KzgInfo.new E pubdata).isSome = true
       ↔ pubdata.length ≤ BYTES_PER_BLOB_ZK_SYNC) ∧
    (KzgInfo.new E pubdata = none
       ↔ BYTES_PER_BLOB_ZK_SYNC < pubdata.length) ∧
    (KzgInfo.new E (List.replicate BYTES_PER_BLOB_ZK_SYNC 0)).isSome = true ∧
    KzgInfo.new E (List.replicate (BYTES_PER_BLOB_ZK_SYNC + 1) 0) = none ∧
    BYTES_PER_BLOB_ZK_SYNC = 4096 * 31 := by
  have key : ∀ pd : List Nat, (KzgInfo.new E pd).isSome = true
      ↔ pd.length ≤ BYTES_PER_BLOB_ZK_SYNC := by
    intro pd
    unfold KzgInfo.new
    by_cases hc : pd.length ≤ BYTES_PER_BLOB_ZK_SYNC
    · rw [if_pos hc]
      simpa using hc
    · rw [if_neg hc]
      simpa using hc
  have key2 : ∀ pd : List Nat, KzgInfo.new E pd = none
      ↔ BYTES_PER_BLOB_ZK_SYNC < pd.length := by
    intro pd
    rw [← Option.not_isSome_iff_eq_none, key pd]
    exact Nat.not_le
  refine ⟨key pubdata, key2 pubdata, ?_, ?_, by decide⟩
  · rw [key]
    simp
  · rw [key2]
    simp

/-- Claim C9: `KzgInfo::from_slice` succeeds exactly on inputs of length
`SERIALIZED_SIZE` = 131312 and fails with no partial result (`none`) on
every other length, in particular at `SERIALIZED_SIZE - 1`. -/
theorem C9_length_check (data : List Nat) :
    ((KzgInfo.from_slice data).isSome = true
       ↔ data.length = SERIALIZED_SIZE) ∧
    (KzgInfo.from_slice data = none ↔ data.length ≠ SERIALIZED_SIZE) ∧
    KzgInfo.from_slice (List.replicate (SERIALIZED_SIZE - 1) 0) = none ∧
    SERIALIZED_SIZE = 131312 := by
  have key : ∀ d : List Nat, (KzgInfo.from_slice d).isSome = true
      ↔ d.length = SERIALIZED_SIZE := by
    intro d
    unfold KzgInfo.from_slice
    by_cases hc : d.length = SERIALIZED_SIZE
    · rw [if_pos hc]
      simpa using hc
    · rw [if_neg hc]
      simpa using hc
  have key2 : ∀ d : List Nat, KzgInfo.from_slice d = none
      ↔ d.length ≠ SERIALIZED_SIZE := by
    intro d
    rw [← Option.not_isSome_iff_eq_none, key d]
  refine ⟨key data, key2 data, ?_, by decide⟩
  rw [key2]
  simp only [List.length_replicate]
  decide

/-- Claim C10: on every buffer of length exactly `SERIALIZED_SIZE`,
serializing the result of deserialization returns the buffer unchanged —
`from_slice` validates nothing beyond the length. -/
theorem C10_serialize_left_inverse (data : List Nat)
    (h : data.length = SERIALIZED_SIZE) :
    (KzgInfo.from_slice data).map KzgInfo.to_bytes = some data :=
  KzgInfo.to_bytes_from_slice data h

theorem C10_witness :
    (List.replicate SERIALIZED_SIZE 0).length = SERIALIZED_SIZE ∧
    (KzgInfo.from_slice (List.replicate SERIALIZED_SIZE 0)).map KzgInfo.to_bytes
      = some (List.replicate SERIALIZED_SIZE 0) :=
  ⟨by simp, C10_serialize_left_inverse _ (by simp)⟩

end Kzg
